import Mathlib

/-!
Verification of the colony-report classifier in
`src/Colony_Report_Breakdown.py`.

The script filters a tabular colony report, keeping the rows whose
free-text `Comment` field contains `'__send to__'` or `'__put on tam__'`
as a case-insensitive substring (`transfer_and_tamoxifen`, line 17),
after `main` (lines 8-11) has read the spreadsheet and coerced the
`Comment` column to strings with `astype(str)` (which maps a missing
value, pandas `NaN`, to the string `"nan"`).

We embed a report as a list of rows; a row carries an optional comment
(`none` models a missing / `NaN` cell) together with the remaining
cells, which the filter never inspects.
-/

/-- Case-sensitive prefix test on character lists: does `hay` start with
`pat`?  Building block for substring containment. -/
def matchHere : List Char → List Char → Bool
  | [], _ => true
  | _ :: _, [] => false
  | p :: ps, h :: hs => p == h && matchHere ps hs

/-- Case-sensitive substring test on character lists: does `hay` contain
`pat` as a contiguous run?  Mirrors Python's `pat in hay`. -/
def hasSub (pat : List Char) : List Char → Bool
  | [] => matchHere pat []
  | h :: hs => matchHere pat (h :: hs) || hasSub pat hs

/-- Case-insensitive substring containment, as performed by
`Series.str.contains(pat, case=False)` on a string cell (the two default
patterns contain no regex metacharacters, so the regex search is plain
substring containment after lowercasing). -/
def containsCI (hay pat : String) : Bool :=
  hasSub (pat.toList.map Char.toLower) (hay.toList.map Char.toLower)

/-- `Series.str.contains(pat, case=False, na=False)` applied to one cell:
a missing (`NaN`) cell yields `False` (`na=False`); a string cell is
tested for case-insensitive substring containment. -/
def commentMatches (pat : String) (c : Option String) : Bool :=
  match c with
  | none => false
  | some s => containsCI s pat

/-- One row of the colony report: the `Comment` cell (`none` = missing /
`NaN`) plus the remaining cells, carried through untouched by the
filter. -/
structure ReportRow where
  comment : Option String
  passthrough : List (String × Option String)
deriving DecidableEq, Repr

/-- The filter condition of line 17:
`df['Comment'].str.contains('__send to__', case=False, na=False)
 | df['Comment'].str.contains('__put on tam__', case=False, na=False)`. -/
def rowMatchesDefault (r : ReportRow) : Bool :=
  commentMatches "__send to__" r.comment || commentMatches "__put on tam__" r.comment

/-- `transfer_and_tamoxifen` (line 17): boolean-mask selection
`df[mask1 | mask2]`, which keeps exactly the rows satisfying the mask,
in their original order. -/
def transfer_and_tamoxifen (df : List ReportRow) : List ReportRow :=
  df.filter rowMatchesDefault

/-- `astype(str)` on one `Comment` cell (line 9): a missing value
(pandas `NaN`) becomes the string `"nan"`; a string stays itself. -/
def astypeStr (c : Option String) : String :=
  match c with
  | none => "nan"
  | some s => s

/-- One raw row of the input spreadsheet: named cells, each possibly
missing. -/
structure RawRow where
  cells : List (String × Option String)
deriving DecidableEq, Repr

/-- Cell lookup by column name (`row['Comment']`): `none` when the cell
is absent or holds a missing value. -/
def RawRow.get (r : RawRow) (col : String) : Option String :=
  match r.cells.find? (fun c => c.fst == col) with
  | none => none
  | some c => c.snd

/-- The raw input spreadsheet: a schema (column names) and rows. -/
structure RawTable where
  schema : List String
  rows : List RawRow
deriving DecidableEq, Repr

/-- Conversion of one raw row performed by `main` line 9: the `Comment`
cell is coerced with `astype(str)`; every other cell passes through. -/
def loadRow (raw : RawRow) : ReportRow :=
  { comment := some (astypeStr (raw.get "Comment")),
    passthrough := raw.cells.filter (fun c => c.fst != "Comment") }

/-- The load error of the spec.  Modelled from the spec:
`InputFormatError` names the failure the source surfaces as a pandas
`KeyError` when `df['Comment']` (line 9) finds no `Comment` column. -/
inductive InputFormatError where
  | missingCommentColumn
deriving DecidableEq, Repr

/-- `load` of the spec, following `main` lines 8-9: reading succeeds and
coerces every `Comment` cell with `astype(str)` when the schema has a
`Comment` column, and fails before any row is processed otherwise.
The error type is modelled from the spec (the source raises a pandas
`KeyError` at the same point); the row conversion follows the source. -/
def load (t : RawTable) : Except InputFormatError (List ReportRow) :=
  if "Comment" ∈ t.schema then
    Except.ok (t.rows.map loadRow)
  else
    Except.error InputFormatError.missingCommentColumn

/-- An action rule of the spec: a named, case-insensitive substring
trigger. -/
structure ActionRule where
  name : String
  trigger : String
deriving DecidableEq, Repr

/-- The default rule set of the spec, read off line 17. -/
def default_rules : List ActionRule :=
  [{ name := "transfer", trigger := "__send to__" },
   { name := "tamoxifen", trigger := "__put on tam__" }]

/-- Does one rule match one row?  Same per-cell test as line 17:
case-insensitive substring containment, missing comment never matches. -/
def ruleMatchesRow (rule : ActionRule) (r : ReportRow) : Bool :=
  commentMatches rule.trigger r.comment

/-- Modelled from the spec: `classify(report, rules)` — the source
hard-codes the two default rules in `transfer_and_tamoxifen`; the spec
generalises the same filter to an arbitrary ordered rule list.  A row is
kept exactly when at least one rule matches; order is untouched. -/
def classify (report : List ReportRow) (rules : List ActionRule) : List ReportRow :=
  report.filter (fun r => rules.any (fun rule => ruleMatchesRow rule r))

/-- Modelled from the spec: `matched_rule_names(row, rules)` — absent
from the source, which only filters; the spec derives the names of all
rules whose trigger matches the row's comment. -/
def matched_rule_names (r : ReportRow) (rules : List ActionRule) : List String :=
  (rules.filter (fun rule => ruleMatchesRow rule r)).map (fun rule => rule.name)

/-- On the default rule set the spec's `classify` is exactly the source
filter `transfer_and_tamoxifen`. -/
theorem classify_default_eq_source (R : List ReportRow) :
    classify R default_rules = transfer_and_tamoxifen R := by
  unfold classify transfer_and_tamoxifen
  apply List.filter_congr
  intro r _
  simp [default_rules, ruleMatchesRow, rowMatchesDefault, List.any]

/-- Filtering twice with the same predicate filters once. -/
theorem filter_idem {α : Type} (p : α → Bool) (l : List α) :
    (l.filter p).filter p = l.filter p := by
  induction l with
  | nil => rfl
  | cons a l ih =>
    cases h : p a <;> simp [List.filter_cons, h, ih]

/-- C1: for every report and the default rule set, a row is in the
output of the source filter iff it is an input row and at least one
default rule's trigger is a case-insensitive substring of its comment;
spelled out, iff its comment contains `"__send to__"` or
`"__put on tam__"` ignoring case. -/
theorem C1_default_classification_iff (R : List ReportRow) (r : ReportRow) :
    r ∈ transfer_and_tamoxifen R ↔
      r ∈ R ∧ ((∃ rule ∈ default_rules, commentMatches rule.trigger r.comment = true) ∧
        (commentMatches "__send to__" r.comment = true ∨
         commentMatches "__put on tam__" r.comment = true)) := by
  simp only [transfer_and_tamoxifen, List.mem_filter, rowMatchesDefault, Bool.or_eq_true]
  constructor
  · rintro ⟨hr, hm⟩
    refine ⟨hr, ?_, hm⟩
    rcases hm with h | h
    · exact ⟨{ name := "transfer", trigger := "__send to__" }, by simp [default_rules], h⟩
    · exact ⟨{ name := "tamoxifen", trigger := "__put on tam__" }, by simp [default_rules], h⟩
  · rintro ⟨hr, _, hm⟩
    exact ⟨hr, hm⟩

/-- C2: when the schema has no `Comment` column, `load` fails with
`InputFormatError` (the source fails at the same point with a pandas
`KeyError` at `df['Comment']`, line 9) and produces no rows. -/
theorem C2_missing_comment_column (t : RawTable)
    (h : "Comment" ∉ t.schema) :
    load t = Except.error InputFormatError.missingCommentColumn := by
  simp [load, h]

/-- Witness for C2 at a schema holding only `AnimalID` and `DOB`. -/
theorem C2_missing_comment_column_witness :
    "Comment" ∉ (["AnimalID", "DOB"] : List String) ∧
    load { schema := ["AnimalID", "DOB"],
           rows := [{ cells := [("AnimalID", some "A1")] }] } =
      Except.error InputFormatError.missingCommentColumn :=
  ⟨by decide, C2_missing_comment_column _ (by decide)⟩

/-- C3 counterexample: a missing `Comment` cell is loaded as the string
`"nan"` (the result of `astype(str)` on pandas `NaN`, line 9), not as
the empty string the claim states. -/
theorem C3_counterexample :
    load { schema := ["Comment"], rows := [{ cells := [("Comment", none)] }] } =
      Except.ok [{ comment := some "nan", passthrough := [] }] ∧
    ("nan" : String) ≠ "" :=
  ⟨rfl, by decide⟩

/-- C3 amended: a row whose `Comment` value is missing never makes
`load` fail — the value is coerced to the string `"nan"` (not the empty
string) — and under the default rule set such a row is excluded from
the output. -/
theorem C3_missing_comment_excluded (t : RawTable) (raw : RawRow)
    (hschema : "Comment" ∈ t.schema)
    (_hrow : raw ∈ t.rows) (hmiss : raw.get "Comment" = none) :
    load t = Except.ok (t.rows.map loadRow) ∧
    (loadRow raw).comment = some "nan" ∧
    loadRow raw ∉ transfer_and_tamoxifen (t.rows.map loadRow) := by
  have hc : (loadRow raw).comment = some "nan" := by
    simp [loadRow, hmiss, astypeStr]
  refine ⟨by simp [load, hschema], hc, ?_⟩
  intro hmem
  have hmask := (List.mem_filter.mp hmem).2
  have hfalse : rowMatchesDefault (loadRow raw) = false := by
    show (commentMatches "__send to__" (loadRow raw).comment ||
      commentMatches "__put on tam__" (loadRow raw).comment) = false
    rw [hc]
    decide
  rw [hfalse] at hmask
  exact Bool.false_ne_true hmask

/-- Witness for C3 amended: one-row table whose `Comment` cell is
missing. -/
theorem C3_missing_comment_excluded_witness :
    "Comment" ∈ (["Comment", "AnimalID"] : List String) ∧
    ({ cells := [("Comment", none), ("AnimalID", some "A1")] } : RawRow) ∈
      [({ cells := [("Comment", none), ("AnimalID", some "A1")] } : RawRow)] ∧
    RawRow.get { cells := [("Comment", none), ("AnimalID", some "A1")] } "Comment" = none ∧
    (load { schema := ["Comment", "AnimalID"],
            rows := [{ cells := [("Comment", none), ("AnimalID", some "A1")] }] } =
      Except.ok ([({ cells := [("Comment", none), ("AnimalID", some "A1")] } : RawRow)].map loadRow) ∧
    (loadRow { cells := [("Comment", none), ("AnimalID", some "A1")] }).comment = some "nan" ∧
    loadRow { cells := [("Comment", none), ("AnimalID", some "A1")] } ∉
      transfer_and_tamoxifen
        ([({ cells := [("Comment", none), ("AnimalID", some "A1")] } : RawRow)].map loadRow)) :=
  ⟨by simp, by simp, by decide,
    C3_missing_comment_excluded _ _ (by simp) (by simp) (by decide)⟩

/-- C4: for every report and rule set, classification returns a
subsequence of the input — original order kept, no reordering, no
deduplication — and likewise for the source's hard-coded filter. -/
theorem C4_classify_sublist (R : List ReportRow) (S : List ActionRule) :
    List.Sublist (classify R S) R ∧ List.Sublist (transfer_and_tamoxifen R) R :=
  ⟨List.filter_sublist R, List.filter_sublist R⟩

/-- C5: a row carrying both default triggers in its comment appears in
the output exactly as often as in the input (once, when the input holds
it once) and both rule names are recorded for it. -/
theorem C5_both_triggers_once (R : List ReportRow) (r : ReportRow)
    (hsend : commentMatches "__send to__" r.comment = true)
    (htam : commentMatches "__put on tam__" r.comment = true)
    (honce : R.count r = 1) :
    (transfer_and_tamoxifen R).count r = 1 ∧
    matched_rule_names r default_rules = ["transfer", "tamoxifen"] := by
  constructor
  · rw [transfer_and_tamoxifen, List.count_filter, honce]
    simp [rowMatchesDefault, hsend, htam]
  · simp [matched_rule_names, default_rules, ruleMatchesRow, hsend, htam]

/-- Witness for C5 at the spec's example comment. -/
theorem C5_both_triggers_once_witness :
    commentMatches "__send to__"
      (some "Weaned; __SEND TO__ breeding; __put on tam__ next week") = true ∧
    commentMatches "__put on tam__"
      (some "Weaned; __SEND TO__ breeding; __put on tam__ next week") = true ∧
    ([({ comment := some "Weaned; __SEND TO__ breeding; __put on tam__ next week",
         passthrough := [] } : ReportRow),
      { comment := some "no action", passthrough := [] }].count
      { comment := some "Weaned; __SEND TO__ breeding; __put on tam__ next week",
        passthrough := [] }) = 1 ∧
    ((transfer_and_tamoxifen
        [{ comment := some "Weaned; __SEND TO__ breeding; __put on tam__ next week",
           passthrough := [] },
         { comment := some "no action", passthrough := [] }]).count
      { comment := some "Weaned; __SEND TO__ breeding; __put on tam__ next week",
        passthrough := [] } = 1 ∧
    matched_rule_names
      { comment := some "Weaned; __SEND TO__ breeding; __put on tam__ next week",
        passthrough := [] } default_rules = ["transfer", "tamoxifen"]) :=
  ⟨by decide, by decide, by decide,
    C5_both_triggers_once _ _ (by decide) (by decide) (by decide)⟩

/-- C6: a comment containing `"__send to__"` in any letter case is
matched by the rule named `"transfer"`, and one containing
`"__put on tam__"` in any letter case by the rule named
`"tamoxifen"`. -/
theorem C6_trigger_names (r : ReportRow) :
    (commentMatches "__send to__" r.comment = true →
      "transfer" ∈ matched_rule_names r default_rules) ∧
    (commentMatches "__put on tam__" r.comment = true →
      "tamoxifen" ∈ matched_rule_names r default_rules) := by
  constructor <;> intro h
  · refine List.mem_map.mpr
      ⟨{ name := "transfer", trigger := "__send to__" }, ?_, rfl⟩
    exact List.mem_filter.mpr ⟨by simp [default_rules], h⟩
  · refine List.mem_map.mpr
      ⟨{ name := "tamoxifen", trigger := "__put on tam__" }, ?_, rfl⟩
    exact List.mem_filter.mpr ⟨by simp [default_rules], h⟩

/-- Witness for C6 at two mixed-case comments. -/
theorem C6_trigger_names_witness :
    "transfer" ∈ matched_rule_names
      { comment := some "a __Send To__ b", passthrough := [] } default_rules ∧
    "tamoxifen" ∈ matched_rule_names
      { comment := some "c __PUT on TAM__ d", passthrough := [] } default_rules :=
  ⟨(C6_trigger_names { comment := some "a __Send To__ b", passthrough := [] }).1
      (by decide),
   (C6_trigger_names { comment := some "c __PUT on TAM__ d", passthrough := [] }).2
      (by decide)⟩

/-- C7: reclassification is idempotent — classifying the rows already
produced by `classify` with the same rule set returns them unchanged. -/
theorem C7_classify_idempotent (R : List ReportRow) (S : List ActionRule) :
    classify (classify R S) S = classify R S :=
  filter_idem _ R

/-- C8: the empty report classifies to the empty report, under the
source filter and under any rule set; both are total functions, so no
error can arise. -/
theorem C8_empty_report (S : List ActionRule) :
    transfer_and_tamoxifen [] = [] ∧ classify [] S = [] :=
  ⟨rfl, rfl⟩

/-- C9: every output row is one of the input rows with all its fields —
the comment and every passthrough cell — unchanged; `classify` is a pure
function and leaves the input report as it was. -/
theorem C9_passthrough_unchanged (R : List ReportRow) (S : List ActionRule)
    (r : ReportRow) (h : r ∈ classify R S) :
    ∃ r0 ∈ R, r0.comment = r.comment ∧ r0.passthrough = r.passthrough :=
  ⟨r, (List.mem_filter.mp h).1, rfl, rfl⟩

/-- Witness for C9 at a one-row report under the default rules. -/
theorem C9_passthrough_unchanged_witness :
    ∃ r0 ∈ [({ comment := some "cage 3 __send to__ room 1",
               passthrough := [("Cage", some "3")] } : ReportRow)],
      r0.comment = some "cage 3 __send to__ room 1" ∧
      r0.passthrough = [("Cage", some "3")] :=
  C9_passthrough_unchanged _ default_rules
    { comment := some "cage 3 __send to__ room 1", passthrough := [("Cage", some "3")] }
    (by decide)

/-- C10: the double underscores are literal trigger text — a comment
containing the bare phrases `"send to"` or `"put on tam"` but neither
full trigger `"__send to__"` nor `"__put on tam__"` is matched by no
default rule, so its row is excluded from the output. -/
theorem C10_underscores_literal (R : List ReportRow) (r : ReportRow) (s : String)
    (hc : r.comment = some s)
    (_hbare : containsCI s "send to" = true ∨ containsCI s "put on tam" = true)
    (hfullsend : containsCI s "__send to__" = false)
    (hfulltam : containsCI s "__put on tam__" = false) :
    r ∉ transfer_and_tamoxifen R := by
  intro hmem
  have hmask := (List.mem_filter.mp hmem).2
  have hfalse : rowMatchesDefault r = false := by
    show (commentMatches "__send to__" r.comment ||
      commentMatches "__put on tam__" r.comment) = false
    rw [hc]
    show (containsCI s "__send to__" || containsCI s "__put on tam__") = false
    rw [hfullsend, hfulltam]
    rfl
  rw [hfalse] at hmask
  exact Bool.false_ne_true hmask

/-- Witness for C10 at a comment holding both bare phrases without the
underscores. -/
theorem C10_underscores_literal_witness :
    containsCI "Please send to room 2 and put on tam" "send to" = true ∧
    containsCI "Please send to room 2 and put on tam" "__send to__" = false ∧
    containsCI "Please send to room 2 and put on tam" "__put on tam__" = false ∧
    ({ comment := some "Please send to room 2 and put on tam",
       passthrough := [] } : ReportRow) ∉
      transfer_and_tamoxifen
        [{ comment := some "Please send to room 2 and put on tam", passthrough := [] }] :=
  ⟨by decide, by decide, by decide,
    C10_underscores_literal _ _ "Please send to room 2 and put on tam" rfl
      (Or.inl (by decide)) (by decide) (by decide)⟩
